import Mathlib

/-!
Shallow embedding of the ai-trader core (Opportunity Scanner, Risk Gate,
Execution Orchestrator) for checking the natural-language specification.

Modelling conventions:
* JavaScript numbers are modelled as exact rationals (`ℚ`); `BigInt`
  amounts as `ℤ`; timestamps (milliseconds) as `ℕ`.
* Numeric strings (`liquidity`, `inputAmount`, ...) are modelled by their
  parsed numeric value; the `parseFloat`/`BigInt` parsing boundary is not
  part of the model.
* External effects (quoting RPCs, transaction submission, confirmation,
  balance reads) are modelled by explicit oracle inputs; the mutable
  `RiskManager` ledger is modelled by explicit state passing.
* `BigInt` division truncates toward zero, hence `Int.tdiv`.
-/

/- ### Data model (src/types/index.ts) -/

structure Token where
  address : String
  symbol : String
  name : String
  decimals : ℕ
  chainId : ℕ
deriving DecidableEq, Repr

structure Pool where
  id : String
  protocol : String
  reserve0 : ℤ
  reserve1 : ℤ
  fee : ℚ
  liquidity : ℚ
  chainId : ℕ
deriving DecidableEq, Repr

structure TradeStep where
  protocol : String
  tokenIn : Token
  tokenOut : Token
  amountIn : ℤ
  amountOutMin : ℤ
  pool : Pool
  route : List String
deriving DecidableEq, Repr

structure ArbitrageOpportunity where
  id : String
  tokenA : Token
  tokenB : Token
  buyPool : Pool
  sellPool : Pool
  profitPercentage : ℚ
  profitAmount : ℤ
  inputAmount : ℤ
  confidence : ℚ
  timestamp : ℕ
  gasEstimate : ℤ
  executionPath : List TradeStep
deriving DecidableEq, Repr

/-- AI model prediction; the `opportunity` back-reference of the TS
interface is dropped (the embedded code never reads it). -/
structure AIModelPrediction where
  confidence : ℚ
  riskScore : ℚ
  executionProbability : ℚ
  timestamp : ℕ
deriving DecidableEq, Repr

/-- CONFIG.trading (src/config: trading section). -/
structure TradingConfig where
  minProfitThreshold : ℚ
  maxSlippage : ℚ
  maxPositionSize : ℚ
  tradingEnabled : Bool
  gasMultiplier : ℚ
  maxGasPrice : ℤ
deriving DecidableEq, Repr

/- ### Risk Gate (RiskManager) -/

inductive RiskLevel where
  | LOW
  | MEDIUM
  | HIGH
  | CRITICAL
deriving DecidableEq, Repr

structure RiskAssessment where
  riskScore : ℤ
  riskLevel : RiskLevel
  shouldExecute : Bool
  reasons : List String
  adjustedPositionSize : ℤ
  maxSlippage : ℚ
deriving DecidableEq, Repr

/-- Mutable fields of `RiskManager` (the Position Ledger). -/
structure RiskState where
  dailyVolume : ℤ
  dailyTrades : ℕ
  activeTrades : ℕ
  lastTradeTime : ℕ
  dailyResetTime : ℕ
  blacklistedTokens : List String
  blacklistedProtocols : List String
deriving DecidableEq, Repr

/-- Next UTC midnight strictly after `now` (resetDailyLimits' `tomorrow`). -/
def nextUtcMidnight (now : ℕ) : ℕ :=
  (now / 86400000 + 1) * 86400000

/-- RiskManager.resetDailyLimits. -/
def resetDailyLimits (st : RiskState) (now : ℕ) : RiskState :=
  { st with
    dailyResetTime := nextUtcMidnight now
    dailyVolume := 0
    dailyTrades := 0 }

/-- The daily-reset check performed at the top of `assessRisk`. -/
def ledgerAfterReset (st : RiskState) (now : ℕ) : RiskState :=
  if now > st.dailyResetTime then resetDailyLimits st now else st

/-- JS `String.prototype.toLowerCase` on the ASCII addresses handled
here, mapped over the character list. -/
def strToLower (s : String) : String := String.mk (s.data.map Char.toLower)

/-- Character-list prefix test (used to formalize "a reason mentioning
..."). -/
def hasPfx : List Char → List Char → Bool
  | [], _ => true
  | _ :: _, [] => false
  | a :: as, b :: bs => a = b && hasPfx as bs

/-- Character-list substring test. -/
def hasSub (needle : List Char) : List Char → Bool
  | [] => hasPfx needle []
  | c :: cs => hasPfx needle (c :: cs) || hasSub needle cs

/-- `strMentions needle hay` holds when `needle` occurs as a contiguous
substring of `hay`. -/
def strMentions (needle hay : String) : Bool :=
  hasSub needle.data hay.data

/-- RiskManager.recordTradeStart. -/
def recordTradeStart (st : RiskState) (now : ℕ) : RiskState :=
  { st with
    activeTrades := st.activeTrades + 1
    dailyTrades := st.dailyTrades + 1
    lastTradeTime := now }

/-- RiskManager.recordTradeEnd. -/
def recordTradeEnd (st : RiskState) (inputAmount : ℤ) (success : Bool) :
    RiskState :=
  { st with
    activeTrades := st.activeTrades - 1
    dailyVolume := if success then st.dailyVolume + inputAmount else st.dailyVolume }

/-- RiskManager.addTokenToBlacklist. -/
def addTokenToBlacklist (st : RiskState) (tokenAddress : String) : RiskState :=
  { st with blacklistedTokens := strToLower tokenAddress :: st.blacklistedTokens }

/-- RiskManager.addProtocolToBlacklist. -/
def addProtocolToBlacklist (st : RiskState) (protocolName : String) : RiskState :=
  { st with blacklistedProtocols := protocolName :: st.blacklistedProtocols }

def stablecoins : List String := ["USDC", "USDT", "DAI", "BUSD"]

def majorTokens : List String := ["WETH", "WBTC", "WMATIC", "BNB"]

def trustedProtocols : List String :=
  ["uniswap_v2", "uniswap_v3", "sushiswap", "pancakeswap"]

/-- RiskManager.assessTokenRisk. -/
def assessTokenRisk (st : RiskState) (opp : ArbitrageOpportunity) :
    ℤ × List String :=
  let s1 : ℤ × List String :=
    if st.blacklistedTokens.contains (strToLower opp.tokenA.address)
        || st.blacklistedTokens.contains (strToLower opp.tokenB.address) then
      (100, ["Token is blacklisted"])
    else (0, [])
  let isStablecoinPair :=
    stablecoins.contains opp.tokenA.symbol
      && stablecoins.contains opp.tokenB.symbol
  let isMajorTokenPair :=
    majorTokens.contains opp.tokenA.symbol
      || majorTokens.contains opp.tokenB.symbol
  let s2 : ℤ × List String :=
    if isStablecoinPair then (-5, ["Stablecoin pair - reduced risk"])
    else if isMajorTokenPair then
      (-2, ["Major token pair - slightly reduced risk"])
    else (10, ["Unknown token pair - increased risk"])
  (s1.1 + s2.1, s1.2 ++ s2.2)

/-- RiskManager.assessProtocolRisk. -/
def assessProtocolRisk (st : RiskState) (opp : ArbitrageOpportunity) :
    ℤ × List String :=
  let s1 : ℤ × List String :=
    if st.blacklistedProtocols.contains opp.buyPool.protocol
        || st.blacklistedProtocols.contains opp.sellPool.protocol then
      (50, ["Protocol is blacklisted"])
    else (0, [])
  let buyProtocolTrusted := trustedProtocols.contains opp.buyPool.protocol
  let sellProtocolTrusted := trustedProtocols.contains opp.sellPool.protocol
  let s2 : ℤ × List String :=
    if !buyProtocolTrusted || !sellProtocolTrusted then
      (15, ["Using less established protocol"])
    else (0, [])
  let s3 : ℤ × List String :=
    if opp.buyPool.protocol ≠ opp.sellPool.protocol then
      (5, ["Cross-protocol arbitrage - additional execution risk"])
    else (0, [])
  (s1.1 + s2.1 + s3.1, s1.2 ++ s2.2 ++ s3.2)

/-- JS comparison `positionSize / minLiquidity > t` for positive `t`:
when `minLiquidity = 0` the float quotient is `+Infinity` (comparison
true) for a positive numerator and `NaN` or `-Infinity` (comparison
false) otherwise. -/
def utilGt (positionSize minLiquidity t : ℚ) : Bool :=
  if minLiquidity = 0 then decide (0 < positionSize)
  else decide (t < positionSize / minLiquidity)

/-- RiskManager.assessLiquidityRisk. -/
def assessLiquidityRisk (opp : ArbitrageOpportunity) : ℤ × List String :=
  let buyLiquidity := opp.buyPool.liquidity
  let sellLiquidity := opp.sellPool.liquidity
  let minLiquidity := min buyLiquidity sellLiquidity
  let positionSize := (opp.inputAmount : ℚ) / 1000000000000000000
  let s1 : ℤ × List String :=
    if minLiquidity < 10000 then (30, ["Very low liquidity pools"])
    else if minLiquidity < 100000 then (15, ["Low liquidity pools"])
    else (0, [])
  let s2 : ℤ × List String :=
    if utilGt positionSize minLiquidity (5 / 100) then
      (25, ["High liquidity utilization - increased slippage risk"])
    else if utilGt positionSize minLiquidity (2 / 100) then
      (10, ["Moderate liquidity utilization"])
    else (0, [])
  (s1.1 + s2.1, s1.2 ++ s2.2)

/-- RiskManager.assessProfitRisk. -/
def assessProfitRisk (opp : ArbitrageOpportunity) : ℤ × List String :=
  let s1 : ℤ × List String :=
    if opp.profitPercentage > 5 then
      (20, ["Unusually high profit margin - possible stale data"])
    else if opp.profitPercentage > 2 then
      (5, ["High profit margin - verify data freshness"])
    else (0, [])
  let s2 : ℤ × List String :=
    if opp.profitPercentage < 1 / 10 then
      (25, ["Very low profit margin - high execution risk"])
    else if opp.profitPercentage < 2 / 10 then
      (10, ["Low profit margin - moderate execution risk"])
    else (0, [])
  (s1.1 + s2.1, s1.2 ++ s2.2)

/-- RiskManager.assessAIPredictionRisk. -/
def assessAIPredictionRisk (p : AIModelPrediction) : ℤ × List String :=
  let s1 : ℤ × List String :=
    if p.confidence < 1 / 2 then (30, ["Low AI confidence in opportunity"])
    else if p.confidence < 7 / 10 then (15, ["Moderate AI confidence"])
    else (-5, ["High AI confidence - reduced risk"])
  let s2 : ℤ × List String :=
    if p.riskScore > 8 / 10 then (25, ["AI indicates high risk"])
    else if p.riskScore > 6 / 10 then (10, ["AI indicates moderate risk"])
    else (0, [])
  let s3 : ℤ × List String :=
    if p.executionProbability < 1 / 2 then
      (20, ["Low execution probability predicted"])
    else (0, [])
  (s1.1 + s2.1 + s3.1, s1.2 ++ s2.2 ++ s3.2)

/-- RiskManager.assessPositionSizeRisk. -/
def assessPositionSizeRisk (cfg : TradingConfig) (st : RiskState)
    (opp : ArbitrageOpportunity) : ℤ × List String :=
  let positionSizeUSD := (opp.inputAmount : ℚ) / 1000000000000000000
  let s1 : ℤ × List String :=
    if positionSizeUSD > cfg.maxPositionSize * (1 / 2) then
      (20, ["Large position size relative to limits"])
    else (0, [])
  let newDailyVolume := st.dailyVolume + opp.inputAmount
  let dailyVolumeUSD := (newDailyVolume : ℚ) / 1000000000000000000
  let s2 : ℤ × List String :=
    if dailyVolumeUSD > cfg.maxPositionSize * 10 then
      (40, ["Would exceed daily volume limits"])
    else (0, [])
  (s1.1 + s2.1, s1.2 ++ s2.2)

/-- RiskManager.assessMarketConditionsRisk.  `Date.now()` is the explicit
`now` argument; JS negative time differences compare the same way as the
truncated `ℕ` subtractions used here (a negative difference fails both
`> 60000` and `> 30000` age tiers and passes `< 30000`). -/
def assessMarketConditionsRisk (st : RiskState) (opp : ArbitrageOpportunity)
    (now : ℕ) : ℤ × List String :=
  let s1 : ℤ × List String :=
    if st.activeTrades ≥ 3 then
      (15, ["Multiple concurrent trades - increased risk"])
    else (0, [])
  let timeSinceLastTrade := now - st.lastTradeTime
  let s2 : ℤ × List String :=
    if timeSinceLastTrade < 30000 ∧ st.lastTradeTime > 0 then
      (10, ["Recent trade execution - cooldown period"])
    else (0, [])
  let opportunityAge := now - opp.timestamp
  let s3 : ℤ × List String :=
    if opportunityAge > 60000 then
      (15, ["Stale opportunity - data may be outdated"])
    else if opportunityAge > 30000 then
      (5, ["Moderately aged opportunity"])
    else (0, [])
  (s1.1 + s2.1 + s3.1, s1.2 ++ s2.2 ++ s3.2)

/-- RiskManager.shouldExecuteTrade (reads the post-reset ledger). -/
def shouldExecuteTrade (cfg : TradingConfig) (st : RiskState)
    (riskScore : ℤ) (opp : ArbitrageOpportunity) : Bool :=
  if riskScore > 70 then false
  else if st.dailyTrades ≥ 50 then false
  else if st.activeTrades ≥ 3 then false
  else if opp.profitPercentage <
      cfg.minProfitThreshold * (1 + (riskScore : ℚ) / 100) then false
  else true

/-- RiskManager.calculateAdjustedPositionSize.  The float products
`0.5*100`, `0.7*100`, `0.85*100` all round to the exact integers used
here, so the rational model agrees with the JS floats. -/
def calculateAdjustedPositionSize (opp : ArbitrageOpportunity)
    (riskScore : ℤ) : ℤ :=
  let sizeMultiplier : ℚ :=
    if riskScore > 50 then 1 / 2
    else if riskScore > 30 then 7 / 10
    else if riskScore > 15 then 85 / 100
    else 1
  Int.tdiv (opp.inputAmount * ⌊sizeMultiplier * 100⌋) 100

/-- RiskManager.calculateAdjustedSlippage. -/
def calculateAdjustedSlippage (cfg : TradingConfig) (riskScore : ℤ) : ℚ :=
  let baseSlippage :=
    if riskScore > 50 then cfg.maxSlippage * (1 / 2)
    else if riskScore > 30 then cfg.maxSlippage * (7 / 10)
    else cfg.maxSlippage
  max baseSlippage (1 / 1000)

/-- The `if (aiPrediction)` step of `assessRisk`: the AI contribution is
assessed only when an annotation is supplied. -/
def aiRiskOf (ai : Option AIModelPrediction) : ℤ × List String :=
  match ai with
  | some p => assessAIPredictionRisk p
  | none => (0, [])

/-- RiskManager.assessRisk: returns the assessment together with the
ledger state after the call (the only mutation is the daily-reset check
at the top of the method). -/
def assessRisk (cfg : TradingConfig) (st : RiskState) (now : ℕ)
    (opp : ArbitrageOpportunity) (ai : Option AIModelPrediction) :
    RiskAssessment × RiskState :=
  let st1 := ledgerAfterReset st now
  let tr := assessTokenRisk st1 opp
  let pr := assessProtocolRisk st1 opp
  let lr := assessLiquidityRisk opp
  let fr := assessProfitRisk opp
  let ar := aiRiskOf ai
  let sr := assessPositionSizeRisk cfg st1 opp
  let mr := assessMarketConditionsRisk st1 opp now
  let riskScore := tr.1 + pr.1 + lr.1 + fr.1 + ar.1 + sr.1 + mr.1
  let reasons := tr.2 ++ pr.2 ++ lr.2 ++ fr.2 ++ ar.2 ++ sr.2 ++ mr.2
  let riskLevel :=
    if riskScore ≤ 20 then RiskLevel.LOW
    else if riskScore ≤ 40 then RiskLevel.MEDIUM
    else if riskScore ≤ 70 then RiskLevel.HIGH
    else RiskLevel.CRITICAL
  ({ riskScore := riskScore
     riskLevel := riskLevel
     shouldExecute := shouldExecuteTrade cfg st1 riskScore opp
     reasons := reasons
     adjustedPositionSize := calculateAdjustedPositionSize opp riskScore
     maxSlippage := calculateAdjustedSlippage cfg riskScore },
   st1)

/- ### Opportunity Scanner (ArbitrageDetector) -/

/-- ArbitrageDetector.calculateMinAmount: the slippage multiplier is
quantized to thousandths (`Math.floor((1 - slippage) * 1000)`) and the
`BigInt` division truncates toward zero. -/
def calculateMinAmount (amount : ℤ) (slippage : ℚ) : ℤ :=
  let slippageMultiplier := 1 - slippage
  Int.tdiv (amount * ⌊slippageMultiplier * 1000⌋) 1000

/-- The two-leg execution path built by
ArbitrageDetector.calculateArbitrage (lines 193-212), as a function of
the chosen buy/sell pools and the obtained quotes. -/
def buildExecutionPath (tokenA tokenB : Token) (buyPool sellPool : Pool)
    (testAmount quoteAtoB quoteBback : ℤ) (maxSlippage : ℚ) :
    List TradeStep :=
  [{ protocol := buyPool.protocol
     tokenIn := tokenA
     tokenOut := tokenB
     amountIn := testAmount
     amountOutMin := calculateMinAmount quoteAtoB maxSlippage
     pool := buyPool
     route := [tokenA.address, tokenB.address] },
   { protocol := sellPool.protocol
     tokenIn := tokenB
     tokenOut := tokenA
     amountIn := quoteAtoB
     amountOutMin := calculateMinAmount quoteBback maxSlippage
     pool := sellPool
     route := [tokenB.address, tokenA.address] }]

/-- ArbitrageDetector.calculateConfidence. -/
def calculateConfidence (buyPool sellPool : Pool)
    (profitPercentage : ℚ) : ℚ :=
  let confidence : ℚ := 1 / 2
  let buyLiquidity := buyPool.liquidity
  let sellLiquidity := sellPool.liquidity
  let avgLiquidity := (buyLiquidity + sellLiquidity) / 2
  let c1 :=
    if avgLiquidity > 1000000 then confidence + 2 / 10
    else if avgLiquidity > 100000 then confidence + 1 / 10
    else confidence
  let c2 :=
    if profitPercentage > 2 then c1 + 15 / 100
    else if profitPercentage > 1 then c1 + 1 / 10
    else if profitPercentage > 1 / 2 then c1 + 5 / 100
    else c1
  let c3 :=
    if buyPool.protocol ≠ sellPool.protocol then c2 - 1 / 10 else c2
  min (max c3 0) 1

/- ### Venue Client (UniswapV3Protocol.getQuote) -/

/-- UniswapV3Protocol.getQuote: the quoter static call is an oracle
input that either yields an output amount or fails; the surrounding
try/catch converts every failure into the string quote `"0"`. -/
def getQuote (quoterResult : Except String ℤ) : String :=
  match quoterResult with
  | Except.ok amountOut => toString amountOut
  | Except.error _ => "0"

/- ### Execution Orchestrator (TradingExecutionEngine) -/

structure ExecutionResult where
  success : Bool
  transactionHashes : List String
  actualProfit : ℤ
  gasUsed : ℤ
  executionTime : ℕ
  error : Option String
deriving DecidableEq, Repr

/-- Outcome of processing one leg of the execution path, as observed at
the orchestrator: the protocol lookup can fail (before submission), the
submission itself can throw, the confirmation wait can yield no receipt,
or a receipt with a status and gas consumption arrives. -/
inductive LegOutcome where
  | protocolMissing (protocolName : String)
  | submitThrew (message : String)
  | noReceipt (txHash : String)
  | confirmed (txHash : String) (status : ℕ) (gasUsed : ℤ)
deriving DecidableEq, Repr

/-- A leg outcome counts as submitted unless the loop threw before the
`executeTrade` call (missing protocol). -/
def legSubmits : LegOutcome → ℕ
  | LegOutcome.protocolMissing _ => 0
  | _ => 1

/-- A leg reached a terminal, successful confirmation (receipt status 1). -/
def legSuccess : LegOutcome → Bool
  | LegOutcome.confirmed _ 1 _ => true
  | _ => false

/-- Accumulated effect of the `executeTrades` leg loop. -/
structure LegsOutcome where
  hashes : List String
  gasUsed : ℤ
  submitted : ℕ
  error : Option String
deriving DecidableEq, Repr

/-- The sequential leg loop of TradingExecutionEngine.executeTrades
(lines 632-672): legs paired with their external outcomes are processed
strictly in order; the hash is pushed and gas accumulated only after a
successful confirmation, and any failure stops the loop with the error
message the code throws there. -/
def runLegs : List (TradeStep × LegOutcome) → LegsOutcome
  | [] => { hashes := [], gasUsed := 0, submitted := 0, error := none }
  | (_, o) :: rest =>
    match o with
    | LegOutcome.protocolMissing p =>
      { hashes := [], gasUsed := 0, submitted := 0
        error := some ("Protocol " ++ p ++ " not found") }
    | LegOutcome.submitThrew m =>
      { hashes := [], gasUsed := 0, submitted := 1, error := some m }
    | LegOutcome.noReceipt tx =>
      { hashes := [], gasUsed := 0, submitted := 1
        error := some ("Transaction " ++ tx ++ " failed to confirm") }
    | LegOutcome.confirmed tx status gas =>
      if status = 1 then
        let r := runLegs rest
        { hashes := tx :: r.hashes, gasUsed := gas + r.gasUsed
          submitted := 1 + r.submitted, error := r.error }
      else
        { hashes := [], gasUsed := 0, submitted := 1
          error := some ("Transaction " ++ tx ++ " failed with status "
            ++ toString status) }

/-- TradingExecutionEngine.executeTrades: the wallet-initialization check
sits before the try block and therefore throws (`Except.error`); inside
the try every leg failure is converted into a failed `ExecutionResult`
carrying the partial hash list.  `balanceFetch` is the post-execution
origin-asset balance read, `duration` the wall-clock time. -/
def executeTrades (walletInitialized : Bool)
    (legs : List (TradeStep × LegOutcome))
    (balanceFetch : Except String ℤ) (inputAmount : ℤ) (duration : ℕ) :
    Except String ExecutionResult :=
  if walletInitialized = false then
    Except.error "Wallet not initialized"
  else
    let r := runLegs legs
    Except.ok <|
      match r.error with
      | some e =>
        { success := false, transactionHashes := r.hashes
          actualProfit := 0, gasUsed := r.gasUsed
          executionTime := duration, error := some e }
      | none =>
        match balanceFetch with
        | Except.error e =>
          { success := false, transactionHashes := r.hashes
            actualProfit := 0, gasUsed := r.gasUsed
            executionTime := duration, error := some e }
        | Except.ok finalBalance =>
          { success := true, transactionHashes := r.hashes
            actualProfit := finalBalance - inputAmount
            gasUsed := r.gasUsed, executionTime := duration
            error := none }

/-- TradeValidation (validateOpportunity's result; that method catches
its own errors and never throws). -/
structure TradeValidation where
  isValid : Bool
  reasons : List String
  adjustedOpportunity : Option ArbitrageOpportunity
deriving DecidableEq, Repr

/-- External outcomes consumed by one `executeOpportunity` pipeline run. -/
structure PipelineWorld where
  aiPrediction : Except String AIModelPrediction
  validation : TradeValidation
  balanceCheck : Except String Unit
  walletInitialized : Bool
  legOutcomes : List LegOutcome
  balanceFetch : Except String ℤ
  elapsed : ℕ

/-- The failed `ExecutionResult` built in `executeOpportunity`'s catch
block: empty transaction list, zero profit, descriptive error. -/
def failedResult (elapsed : ℕ) (message : String) : ExecutionResult :=
  { success := false, transactionHashes := [], actualProfit := 0
    gasUsed := 0, executionTime := elapsed, error := some message }

/-- TradingExecutionEngine.executeOpportunity (lines 371-438).  The two
entry guards (`isExecuting`, `tradingEnabled`) sit before the try block
and throw to the caller (`Except.error`); every failure raised inside
the try block is caught and converted into a failed `ExecutionResult`.
`aiThreshold` is CONFIG.ai.predictionConfidenceThreshold. -/
def executeOpportunity (cfg : TradingConfig) (aiThreshold : ℚ)
    (isExecuting : Bool) (w : PipelineWorld)
    (opp : ArbitrageOpportunity) : Except String ExecutionResult :=
  if isExecuting then
    Except.error "Another trade is currently executing"
  else if cfg.tradingEnabled = false then
    Except.error "Trading is disabled in configuration"
  else
    Except.ok <|
      match w.aiPrediction with
      | Except.error e => failedResult w.elapsed e
      | Except.ok p =>
        if p.confidence < aiThreshold then
          failedResult w.elapsed "AI confidence too low"
        else if w.validation.isValid = false then
          failedResult w.elapsed
            ("Validation failed: " ++ String.intercalate ", " w.validation.reasons)
        else
          let vopp := w.validation.adjustedOpportunity.getD opp
          match w.balanceCheck with
          | Except.error e => failedResult w.elapsed e
          | Except.ok _ =>
            match executeTrades w.walletInitialized
                (vopp.executionPath.zip w.legOutcomes) w.balanceFetch
                vopp.inputAmount w.elapsed with
            | Except.error e => failedResult w.elapsed e
            | Except.ok r => r

/- ### Concrete fixtures used by counterexamples and witnesses -/

def tokUSDC : Token :=
  { address := "0xA0b8", symbol := "USDC", name := "USD Coin"
    decimals := 6, chainId := 1 }

def tokUSDT : Token :=
  { address := "0xdAC1", symbol := "USDT", name := "Tether USD"
    decimals := 6, chainId := 1 }

def tokWETH : Token :=
  { address := "0xC02a", symbol := "WETH", name := "Wrapped Ether"
    decimals := 18, chainId := 1 }

def tokFOO : Token :=
  { address := "0xF00F", symbol := "FOO", name := "Foo Token"
    decimals := 18, chainId := 1 }

def poolUniA : Pool :=
  { id := "0xp1", protocol := "uniswap_v2", reserve0 := 0, reserve1 := 0
    fee := 3 / 1000, liquidity := 200000, chainId := 1 }

def poolUniB : Pool :=
  { id := "0xp2", protocol := "uniswap_v2", reserve0 := 0, reserve1 := 0
    fee := 3 / 1000, liquidity := 200000, chainId := 1 }

def poolSushi : Pool :=
  { id := "0xp3", protocol := "sushiswap", reserve0 := 0, reserve1 := 0
    fee := 3 / 1000, liquidity := 200000, chainId := 1 }

/-- Trading configuration with the Scenario B threshold (0.5%). -/
def cfgHalf : TradingConfig :=
  { minProfitThreshold := 1 / 2, maxSlippage := 2 / 100
    maxPositionSize := 1000, tradingEnabled := true
    gasMultiplier := 12 / 10, maxGasPrice := 100000000000 }

/-- Fresh ledger: nothing traded yet, next reset far in the future. -/
def stFresh : RiskState :=
  { dailyVolume := 0, dailyTrades := 0, activeTrades := 0
    lastTradeTime := 0, dailyResetTime := 1000000000000000
    blacklistedTokens := [], blacklistedProtocols := [] }

/-- Ledger whose daily reset time has already passed. -/
def stStale : RiskState :=
  { dailyVolume := 7, dailyTrades := 5, activeTrades := 1
    lastTradeTime := 3, dailyResetTime := 0
    blacklistedTokens := [], blacklistedProtocols := [] }

/-- Ledger with three trades in flight. -/
def stActive3 : RiskState :=
  { stFresh with activeTrades := 3 }

/-- Ledger with USDC's (lower-cased) address on the asset blacklist. -/
def stBlacklist : RiskState :=
  { stFresh with blacklistedTokens := ["0xa0b8"] }

/-- Scenario B opportunity: profit 0.05%, stablecoin pair on the same
trusted venue, deep pools, fresh timestamp. -/
def oppLowProfit : ArbitrageOpportunity :=
  { id := "opp-b", tokenA := tokUSDC, tokenB := tokUSDT
    buyPool := poolUniA, sellPool := poolUniB
    profitPercentage := 1 / 20, profitAmount := 500000000000000
    inputAmount := 1000000000000000000, confidence := 1 / 2
    timestamp := 1000000, gasEstimate := 300000, executionPath := [] }

/-- Stablecoin opportunity with a comfortable 0.5% profit. -/
def oppStable : ArbitrageOpportunity :=
  { oppLowProfit with id := "opp-neg", profitPercentage := 1 / 2 }

/-- Major-token cross-venue opportunity with a comfortable 0.5% profit. -/
def oppMajorCross : ArbitrageOpportunity :=
  { oppLowProfit with
    id := "opp-18"
    tokenA := tokWETH
    tokenB := tokFOO
    buyPool := poolUniA
    sellPool := poolSushi
    profitPercentage := 1 / 2 }

/-- A high-confidence, low-risk AI annotation. -/
def aiGood : AIModelPrediction :=
  { confidence := 4 / 5, riskScore := 1 / 10
    executionProbability := 9 / 10, timestamp := 1000000 }

def stepLeg1 : TradeStep :=
  { protocol := "uniswap_v2", tokenIn := tokUSDC, tokenOut := tokUSDT
    amountIn := 1000000, amountOutMin := 999000, pool := poolUniA
    route := ["0xA0b8", "0xdAC1"] }

def stepLeg2 : TradeStep :=
  { protocol := "uniswap_v2", tokenIn := tokUSDT, tokenOut := tokUSDC
    amountIn := 999500, amountOutMin := 999000, pool := poolUniB
    route := ["0xdAC1", "0xA0b8"] }

/-- Scenario D leg pairing: leg 1 confirms with status 1, leg 2 confirms
with status 0. -/
def legsScenarioD : List (TradeStep × LegOutcome) :=
  [(stepLeg1, LegOutcome.confirmed "0xleg1" 1 21000),
   (stepLeg2, LegOutcome.confirmed "0xleg2" 0 0)]

/-- A pipeline world in which every external step succeeds. -/
def worldOk : PipelineWorld :=
  { aiPrediction := Except.ok aiGood
    validation := { isValid := true, reasons := [], adjustedOpportunity := none }
    balanceCheck := Except.ok ()
    walletInitialized := true
    legOutcomes := [LegOutcome.confirmed "0xleg1" 1 21000,
                    LegOutcome.confirmed "0xleg2" 1 30000]
    balanceFetch := Except.ok 1000000000000000000
    elapsed := 5 }

/- ### Claim C8 -/

/-- C8: the Venue Client's quoting operation never throws to its caller —
`UniswapV3Protocol.getQuote` converts every quoting failure into the
string `"0"`, so at the public interface a failed quote is
indistinguishable from a genuine zero-output quote. -/
theorem c8_getQuote_never_throws :
    (∀ e : String, getQuote (Except.error e) = "0") ∧
    (∀ e : String, getQuote (Except.error e) = getQuote (Except.ok 0)) := by
  exact ⟨fun _ => rfl, fun _ => rfl⟩

/- ### Claim C9 -/

/-- C9: the Scanner's confidence heuristic is always clamped to the
closed interval `[0, 1]`: for every pair of pools and every profit
percentage, `calculateConfidence` returns `v` with `0 ≤ v ≤ 1`. -/
theorem c9_confidence_clamped (buyPool sellPool : Pool)
    (profitPercentage : ℚ) :
    0 ≤ calculateConfidence buyPool sellPool profitPercentage ∧
      calculateConfidence buyPool sellPool profitPercentage ≤ 1 := by
  simp only [calculateConfidence]
  exact ⟨le_min (le_max_right _ _) zero_le_one, min_le_right _ _⟩

/- ### Field-update helpers for the monotonicity statements -/

/-- The opportunity with both pools' liquidity replaced, everything else
held fixed. -/
def withLiquidity (opp : ArbitrageOpportunity) (lb ls : ℚ) :
    ArbitrageOpportunity :=
  { opp with
    buyPool := { opp.buyPool with liquidity := lb }
    sellPool := { opp.sellPool with liquidity := ls } }

/-- The opportunity with its profit percentage replaced. -/
def withProfit (opp : ArbitrageOpportunity) (p : ℚ) : ArbitrageOpportunity :=
  { opp with profitPercentage := p }

/-- The opportunity with its detection timestamp replaced. -/
def withTimestamp (opp : ArbitrageOpportunity) (t : ℕ) : ArbitrageOpportunity :=
  { opp with timestamp := t }

/-- The ledger with its active-trade counter replaced. -/
def withActiveTrades (st : RiskState) (a : ℕ) : RiskState :=
  { st with activeTrades := a }

/- ### Helper lemmas: projections of the assessment -/

lemma assess_snd (cfg : TradingConfig) (st : RiskState) (now : ℕ)
    (opp : ArbitrageOpportunity) (ai : Option AIModelPrediction) :
    (assessRisk cfg st now opp ai).2 = ledgerAfterReset st now := rfl

lemma assess_riskLevel_def (cfg : TradingConfig) (st : RiskState) (now : ℕ)
    (opp : ArbitrageOpportunity) (ai : Option AIModelPrediction) :
    (assessRisk cfg st now opp ai).1.riskLevel =
      (if (assessRisk cfg st now opp ai).1.riskScore ≤ 20 then RiskLevel.LOW
       else if (assessRisk cfg st now opp ai).1.riskScore ≤ 40 then RiskLevel.MEDIUM
       else if (assessRisk cfg st now opp ai).1.riskScore ≤ 70 then RiskLevel.HIGH
       else RiskLevel.CRITICAL) := rfl

lemma assess_adjusted_def (cfg : TradingConfig) (st : RiskState) (now : ℕ)
    (opp : ArbitrageOpportunity) (ai : Option AIModelPrediction) :
    (assessRisk cfg st now opp ai).1.adjustedPositionSize =
      calculateAdjustedPositionSize opp (assessRisk cfg st now opp ai).1.riskScore := rfl

lemma assess_shouldExecute_def (cfg : TradingConfig) (st : RiskState) (now : ℕ)
    (opp : ArbitrageOpportunity) (ai : Option AIModelPrediction) :
    (assessRisk cfg st now opp ai).1.shouldExecute =
      shouldExecuteTrade cfg (ledgerAfterReset st now)
        (assessRisk cfg st now opp ai).1.riskScore opp := rfl

/-- Every total score of at most 20 is mapped to level LOW. -/
lemma riskLevel_low_of_score (cfg : TradingConfig) (st : RiskState) (now : ℕ)
    (opp : ArbitrageOpportunity) (ai : Option AIModelPrediction)
    (h : (assessRisk cfg st now opp ai).1.riskScore ≤ 20) :
    (assessRisk cfg st now opp ai).1.riskLevel = RiskLevel.LOW := by
  rw [assess_riskLevel_def, if_pos h]

/-- Every total score of at most 15 keeps the full position size. -/
lemma fullSize_of_score_le15 (cfg : TradingConfig) (st : RiskState) (now : ℕ)
    (opp : ArbitrageOpportunity) (ai : Option AIModelPrediction)
    (h : (assessRisk cfg st now opp ai).1.riskScore ≤ 15) :
    (assessRisk cfg st now opp ai).1.adjustedPositionSize = opp.inputAmount := by
  rw [assess_adjusted_def]
  unfold calculateAdjustedPositionSize
  rw [if_neg (by omega), if_neg (by omega), if_neg (by omega)]
  norm_num

/- ### Helper lemmas: concrete evaluations -/

lemma evalScore_majorCross :
    (assessRisk cfgHalf stActive3 1000000 oppMajorCross none).1.riskScore = 18 := by
  norm_num +decide [assessRisk, assessTokenRisk, assessProtocolRisk,
    assessLiquidityRisk, assessProfitRisk, assessAIPredictionRisk, aiRiskOf,
    assessPositionSizeRisk, assessMarketConditionsRisk, ledgerAfterReset,
    utilGt, stablecoins, majorTokens, trustedProtocols, cfgHalf, stFresh,
    stActive3, oppMajorCross, oppLowProfit, tokWETH, tokFOO, poolUniA, poolSushi]

lemma evalScore_stableGood :
    (assessRisk cfgHalf stFresh 1000000 oppStable (some aiGood)).1.riskScore = -10 := by
  norm_num +decide [assessRisk, assessTokenRisk, assessProtocolRisk,
    assessLiquidityRisk, assessProfitRisk, assessAIPredictionRisk, aiRiskOf,
    assessPositionSizeRisk, assessMarketConditionsRisk, ledgerAfterReset,
    utilGt, stablecoins, majorTokens, trustedProtocols, cfgHalf, stFresh,
    oppStable, oppLowProfit, aiGood, tokUSDC, tokUSDT, poolUniA, poolUniB]

/- ### Claim C1 -/

/-- C1 counterexample: with a trade already executing, the Execution
Orchestrator's `executeOpportunity` does not return an
`ExecutionResult`; the entry guard throws the failure to the caller. -/
theorem c1_counterexample :
    executeOpportunity cfgHalf (3 / 4) true worldOk oppStable =
      Except.error "Another trade is currently executing" := rfl

/-- C1 (amended): once past the two entry guards, every failure arising
inside the opportunity's pipeline is caught at the pipeline boundary and
converted into an `ExecutionResult` (on early abort with empty
transaction list, zero profit and a descriptive error); but the two
guards themselves — another trade already executing, or trading disabled
in configuration — throw synchronously to the caller instead of
returning an `ExecutionResult`. -/
theorem c1_executeOpportunity_total_amended :
    (∀ (cfg : TradingConfig) (aiThreshold : ℚ) (w : PipelineWorld)
        (opp : ArbitrageOpportunity), cfg.tradingEnabled = true →
      ∃ r : ExecutionResult,
        executeOpportunity cfg aiThreshold false w opp = Except.ok r) ∧
    (∀ (cfg : TradingConfig) (aiThreshold : ℚ) (w : PipelineWorld)
        (opp : ArbitrageOpportunity) (e : String), cfg.tradingEnabled = true →
      w.aiPrediction = Except.error e →
      executeOpportunity cfg aiThreshold false w opp =
        Except.ok (failedResult w.elapsed e)) ∧
    (∀ (cfg : TradingConfig) (aiThreshold : ℚ) (w : PipelineWorld)
        (opp : ArbitrageOpportunity), cfg.tradingEnabled = false →
      executeOpportunity cfg aiThreshold false w opp =
        Except.error "Trading is disabled in configuration") ∧
    (∀ (cfg : TradingConfig) (aiThreshold : ℚ) (w : PipelineWorld)
        (opp : ArbitrageOpportunity),
      executeOpportunity cfg aiThreshold true w opp =
        Except.error "Another trade is currently executing") := by
  refine ⟨?_, ?_, ?_, ?_⟩
  · intro cfg aiThreshold w opp h
    simp only [executeOpportunity, h, if_false, Bool.true_eq_false, if_neg]
    exact ⟨_, rfl⟩
  · intro cfg aiThreshold w opp e h haip
    simp only [executeOpportunity, h, haip, if_false, Bool.true_eq_false, if_neg]
    rfl
  · intro cfg aiThreshold w opp h
    simp only [executeOpportunity, h, if_false, if_pos]
    rfl
  · intro cfg aiThreshold w opp
    simp only [executeOpportunity, if_true]

/-- C1 witness: a concrete pipeline call past the guards yields an
`ExecutionResult`. -/
theorem c1_witness :
    cfgHalf.tradingEnabled = true ∧
    (∃ r : ExecutionResult,
      executeOpportunity cfgHalf (3 / 4) false worldOk oppStable = Except.ok r) :=
  ⟨rfl, c1_executeOpportunity_total_amended.1 cfgHalf (3 / 4) worldOk oppStable rfl⟩

/- ### Claim C3 -/

/-- C3 counterexample: with the daily reset time already in the past,
`assessRisk` mutates the Ledger — the daily trade counter changes from 5
to 0 during the assessment. -/
theorem c3_counterexample :
    (assessRisk cfgHalf stStale 1 oppStable none).2.dailyTrades ≠
      stStale.dailyTrades := by decide

/-- C3 (amended): `assessRisk` never mutates the active-trade counter,
the last-trade timestamp or the two blacklists, and it leaves the Ledger
entirely unchanged unless the daily reset time has passed, in which case
(and only then) it zeroes the daily trade counter and daily volume and
advances the reset time to the next UTC midnight — the once-per-day
reset is triggered from inside `assess`, not only from the explicit
mutators. -/
theorem c3_assess_frame_amended (cfg : TradingConfig) (st : RiskState)
    (now : ℕ) (opp : ArbitrageOpportunity) (ai : Option AIModelPrediction) :
    (assessRisk cfg st now opp ai).2.activeTrades = st.activeTrades ∧
    (assessRisk cfg st now opp ai).2.lastTradeTime = st.lastTradeTime ∧
    (assessRisk cfg st now opp ai).2.blacklistedTokens = st.blacklistedTokens ∧
    (assessRisk cfg st now opp ai).2.blacklistedProtocols = st.blacklistedProtocols ∧
    (now ≤ st.dailyResetTime → (assessRisk cfg st now opp ai).2 = st) ∧
    (st.dailyResetTime < now →
      (assessRisk cfg st now opp ai).2.dailyTrades = 0 ∧
      (assessRisk cfg st now opp ai).2.dailyVolume = 0 ∧
      (assessRisk cfg st now opp ai).2.dailyResetTime = nextUtcMidnight now) := by
  simp only [assess_snd]
  unfold ledgerAfterReset resetDailyLimits
  refine ⟨?_, ?_, ?_, ?_, ?_, ?_⟩
  · split <;> rfl
  · split <;> rfl
  · split <;> rfl
  · split <;> rfl
  · intro h
    rw [if_neg (by omega)]
  · intro h
    rw [if_pos (by omega)]
    exact ⟨rfl, rfl, rfl⟩

/-- C3 witness: the amended frame property applied to the stale ledger. -/
theorem c3_witness :
    stStale.dailyResetTime < 1 ∧
    ((assessRisk cfgHalf stStale 1 oppStable none).2.dailyTrades = 0 ∧
     (assessRisk cfgHalf stStale 1 oppStable none).2.dailyVolume = 0 ∧
     (assessRisk cfgHalf stStale 1 oppStable none).2.dailyResetTime =
       nextUtcMidnight 1) :=
  ⟨by decide,
   (c3_assess_frame_amended cfgHalf stStale 1 oppStable none).2.2.2.2.2 (by decide)⟩

/- ### Claim C7 -/

/-- C7 counterexample: with `maxSlippage = 0.0005` and a quoted output of
20000, the built legs carry a minimum output of 19980, not the claimed
`quotedOut × (1 − maxSlippage) = 19990`. -/
theorem c7_counterexample :
    (buildExecutionPath tokUSDC tokUSDT poolUniA poolUniB 100 20000 20000
        (1 / 2000)).map TradeStep.amountOutMin = [19980, 19980] ∧
    ((19980 : ℚ) ≠ (20000 : ℚ) * (1 - 1 / 2000)) := by
  constructor
  · have hf : (⌊((1 : ℚ) - 1 / 2000) * 1000⌋ : ℤ) = 999 := by
      norm_num [Int.floor_eq_iff]
    simp only [buildExecutionPath, calculateMinAmount, hf, List.map]
    norm_num
    decide
  · norm_num

/-- C7 (amended): each built leg's minimum output is
`⌊quotedOut × ⌊(1 − maxSlippage) × 1000⌋ / 1000⌋` (`BigInt` truncation),
which never exceeds — but for slippage values that are not multiples of
0.001 falls strictly short of — `quotedOut × (1 − maxSlippage)`. -/
theorem c7_minOut_quantized_amended :
    (∀ (amount : ℤ) (slippage : ℚ), 0 ≤ amount → 0 ≤ slippage → slippage ≤ 1 →
      ((calculateMinAmount amount slippage : ℤ) : ℚ) ≤
        (amount : ℚ) * (1 - slippage)) ∧
    (∀ (tokenA tokenB : Token) (buyPool sellPool : Pool)
        (testAmount quoteAtoB quoteBback : ℤ) (maxSlippage : ℚ),
      (buildExecutionPath tokenA tokenB buyPool sellPool testAmount quoteAtoB
          quoteBback maxSlippage).map TradeStep.amountOutMin =
        [calculateMinAmount quoteAtoB maxSlippage,
         calculateMinAmount quoteBback maxSlippage]) := by
  constructor
  · intro amount slippage ha hs0 hs1
    simp only [calculateMinAmount]
    have hmul : (0 : ℚ) ≤ (1 - slippage) * 1000 := by nlinarith
    have hk0 : (0 : ℤ) ≤ ⌊(1 - slippage) * 1000⌋ := Int.floor_nonneg.mpr hmul
    have hk : ((⌊(1 - slippage) * 1000⌋ : ℤ) : ℚ) ≤ (1 - slippage) * 1000 :=
      Int.floor_le _
    have hx : (0 : ℤ) ≤ amount * ⌊(1 - slippage) * 1000⌋ := mul_nonneg ha hk0
    have h1 : Int.tdiv (amount * ⌊(1 - slippage) * 1000⌋) 1000 * 1000 ≤
        amount * ⌊(1 - slippage) * 1000⌋ := by
      rw [Int.tdiv_eq_ediv hx (by norm_num)]
      exact Int.ediv_mul_le _ (by norm_num)
    have h2 : ((Int.tdiv (amount * ⌊(1 - slippage) * 1000⌋) 1000 : ℤ) : ℚ) * 1000 ≤
        (amount : ℚ) * ((⌊(1 - slippage) * 1000⌋ : ℤ) : ℚ) := by
      exact_mod_cast h1
    have h3 : (amount : ℚ) * ((⌊(1 - slippage) * 1000⌋ : ℤ) : ℚ) ≤
        (amount : ℚ) * ((1 - slippage) * 1000) := by
      apply mul_le_mul_of_nonneg_left hk
      exact_mod_cast ha
    nlinarith
  · intro tokenA tokenB buyPool sellPool testAmount quoteAtoB quoteBback maxSlippage
    rfl

/-- C7 witness: the quantized bound applied at slippage 0. -/
theorem c7_witness :
    ((0 : ℤ) ≤ 20000 ∧ (0 : ℚ) ≤ 0 ∧ (0 : ℚ) ≤ 1) ∧
    ((calculateMinAmount 20000 0 : ℤ) : ℚ) ≤ (20000 : ℚ) * (1 - 0) :=
  ⟨⟨by decide, le_refl 0, zero_le_one⟩,
   c7_minOut_quantized_amended.1 20000 0 (by decide) (le_refl 0) zero_le_one⟩

/- ### Claim C10 -/

/-- C10 counterexample: a reachable assessment with total score 18 is
reported as level LOW yet its adjusted position size is reduced to 85%
of the input, so not every score of at most 20 keeps the full
(unreduced) position size. -/
theorem c10_counterexample :
    (assessRisk cfgHalf stActive3 1000000 oppMajorCross none).1.riskScore = 18 ∧
    (assessRisk cfgHalf stActive3 1000000 oppMajorCross none).1.riskLevel =
      RiskLevel.LOW ∧
    (assessRisk cfgHalf stActive3 1000000 oppMajorCross none).1.adjustedPositionSize ≠
      oppMajorCross.inputAmount := by
  refine ⟨evalScore_majorCross, ?_, ?_⟩
  · exact riskLevel_low_of_score _ _ _ _ _ (by rw [evalScore_majorCross]; norm_num)
  · rw [assess_adjusted_def, evalScore_majorCross]
    unfold calculateAdjustedPositionSize
    norm_num [Int.floor_eq_iff]
    decide

/-- C10 (amended): the total risk score is not clamped below at zero —
a stablecoin pair on the same trusted venue with a high-confidence AI
annotation yields the strictly negative score −10 — and every score at
most 20 is reported as level LOW; the full (unreduced) position size,
however, is kept only for scores at most 15, while scores in (15, 20]
are LOW with the position size reduced to 85%. -/
theorem c10_riskScore_unclamped_amended :
    ((assessRisk cfgHalf stFresh 1000000 oppStable (some aiGood)).1.riskScore = -10 ∧
     (assessRisk cfgHalf stFresh 1000000 oppStable (some aiGood)).1.riskLevel =
       RiskLevel.LOW ∧
     (assessRisk cfgHalf stFresh 1000000 oppStable (some aiGood)).1.adjustedPositionSize =
       oppStable.inputAmount) ∧
    (∀ (cfg : TradingConfig) (st : RiskState) (now : ℕ)
        (opp : ArbitrageOpportunity) (ai : Option AIModelPrediction),
      (assessRisk cfg st now opp ai).1.riskScore ≤ 20 →
      (assessRisk cfg st now opp ai).1.riskLevel = RiskLevel.LOW) ∧
    (∀ (cfg : TradingConfig) (st : RiskState) (now : ℕ)
        (opp : ArbitrageOpportunity) (ai : Option AIModelPrediction),
      (assessRisk cfg st now opp ai).1.riskScore ≤ 15 →
      (assessRisk cfg st now opp ai).1.adjustedPositionSize = opp.inputAmount) ∧
    ((assessRisk cfgHalf stActive3 1000000 oppMajorCross none).1.adjustedPositionSize *
        100 = oppMajorCross.inputAmount * 85) := by
  refine ⟨⟨evalScore_stableGood, ?_, ?_⟩, ?_, ?_, ?_⟩
  · exact riskLevel_low_of_score _ _ _ _ _ (by rw [evalScore_stableGood]; norm_num)
  · exact fullSize_of_score_le15 _ _ _ _ _ (by rw [evalScore_stableGood]; norm_num)
  · exact riskLevel_low_of_score
  · exact fullSize_of_score_le15
  · rw [assess_adjusted_def, evalScore_majorCross]
    unfold calculateAdjustedPositionSize
    norm_num [Int.floor_eq_iff]
    decide

/-- C10 witness: the LOW-level bound applied at the concrete score-18
assessment. -/
theorem c10_witness :
    (assessRisk cfgHalf stActive3 1000000 oppMajorCross none).1.riskScore ≤ 20 ∧
    (assessRisk cfgHalf stActive3 1000000 oppMajorCross none).1.riskLevel =
      RiskLevel.LOW :=
  ⟨evalScore_majorCross ▸ (by decide : (18 : ℤ) ≤ 20),
   c10_riskScore_unclamped_amended.2.1 cfgHalf stActive3 1000000 oppMajorCross none
     (evalScore_majorCross ▸ (by decide : (18 : ℤ) ≤ 20))⟩

/- ### Helper lemmas: bounds on the scoring dimensions -/

lemma assess_riskScore_def (cfg : TradingConfig) (st : RiskState) (now : ℕ)
    (opp : ArbitrageOpportunity) (ai : Option AIModelPrediction) :
    (assessRisk cfg st now opp ai).1.riskScore =
      (assessTokenRisk (ledgerAfterReset st now) opp).1 +
      (assessProtocolRisk (ledgerAfterReset st now) opp).1 +
      (assessLiquidityRisk opp).1 + (assessProfitRisk opp).1 +
      (aiRiskOf ai).1 +
      (assessPositionSizeRisk cfg (ledgerAfterReset st now) opp).1 +
      (assessMarketConditionsRisk (ledgerAfterReset st now) opp now).1 := rfl

lemma assess_reasons_def (cfg : TradingConfig) (st : RiskState) (now : ℕ)
    (opp : ArbitrageOpportunity) (ai : Option AIModelPrediction) :
    (assessRisk cfg st now opp ai).1.reasons =
      (assessTokenRisk (ledgerAfterReset st now) opp).2 ++
      (assessProtocolRisk (ledgerAfterReset st now) opp).2 ++
      (assessLiquidityRisk opp).2 ++ (assessProfitRisk opp).2 ++
      (aiRiskOf ai).2 ++
      (assessPositionSizeRisk cfg (ledgerAfterReset st now) opp).2 ++
      (assessMarketConditionsRisk (ledgerAfterReset st now) opp now).2 := rfl

lemma ledgerAfterReset_blacklistedTokens (st : RiskState) (now : ℕ) :
    (ledgerAfterReset st now).blacklistedTokens = st.blacklistedTokens := by
  unfold ledgerAfterReset resetDailyLimits
  split <;> rfl

lemma tokenScore_ge (st : RiskState) (opp : ArbitrageOpportunity) :
    -5 ≤ (assessTokenRisk st opp).1 := by
  simp only [assessTokenRisk]
  split_ifs <;> norm_num

lemma tokenScore_blacklisted (st : RiskState) (opp : ArbitrageOpportunity)
    (h : st.blacklistedTokens.contains (strToLower opp.tokenA.address) = true ∨
         st.blacklistedTokens.contains (strToLower opp.tokenB.address) = true) :
    95 ≤ (assessTokenRisk st opp).1 := by
  simp only [assessTokenRisk]
  rw [if_pos (Bool.or_eq_true _ _ ▸ h)]
  split_ifs <;> norm_num

lemma protocolScore_nonneg (st : RiskState) (opp : ArbitrageOpportunity) :
    0 ≤ (assessProtocolRisk st opp).1 := by
  simp only [assessProtocolRisk]
  split_ifs <;> norm_num

lemma liquidityScore_nonneg (opp : ArbitrageOpportunity) :
    0 ≤ (assessLiquidityRisk opp).1 := by
  simp only [assessLiquidityRisk]
  split_ifs <;> norm_num

lemma profitScore_nonneg (opp : ArbitrageOpportunity) :
    0 ≤ (assessProfitRisk opp).1 := by
  simp only [assessProfitRisk]
  split_ifs <;> norm_num

lemma aiScore_ge (p : AIModelPrediction) :
    -5 ≤ (assessAIPredictionRisk p).1 := by
  simp only [assessAIPredictionRisk]
  split_ifs <;> norm_num

lemma aiRiskOf_ge (ai : Option AIModelPrediction) : -5 ≤ (aiRiskOf ai).1 := by
  cases ai with
  | none => norm_num [aiRiskOf]
  | some p => simpa [aiRiskOf] using aiScore_ge p

lemma positionScore_nonneg (cfg : TradingConfig) (st : RiskState)
    (opp : ArbitrageOpportunity) :
    0 ≤ (assessPositionSizeRisk cfg st opp).1 := by
  simp only [assessPositionSizeRisk]
  split_ifs <;> norm_num

lemma marketScore_nonneg (st : RiskState) (opp : ArbitrageOpportunity)
    (now : ℕ) :
    0 ≤ (assessMarketConditionsRisk st opp now).1 := by
  simp only [assessMarketConditionsRisk]
  split_ifs <;> norm_num

/-- A profit percentage below the 0.1% floor earns exactly the +25
penalty and the very-low-margin reason. -/
lemma profitRisk_low (opp : ArbitrageOpportunity)
    (h : opp.profitPercentage < 1 / 10) :
    assessProfitRisk opp = (25, ["Very low profit margin - high execution risk"]) := by
  have h5 : ¬ (opp.profitPercentage > 5) := by linarith
  have h2 : ¬ (opp.profitPercentage > 2) := by linarith
  simp only [assessProfitRisk, if_neg h5, if_neg h2, if_pos h]
  rfl

/- ### Claim C2 -/

/-- C2 counterexample: at profit 0.05% with threshold 0.5% the Risk Gate
does return `shouldExecute = false`, but no reason in the returned list
mentions the profit threshold — the produced reasons speak of the low
profit margin only, and `shouldExecuteTrade` pushes no reason at all. -/
theorem c2_counterexample :
    (assessRisk cfgHalf stFresh 1000000 oppLowProfit none).1.shouldExecute = false ∧
    (assessRisk cfgHalf stFresh 1000000 oppLowProfit none).1.reasons =
      ["Stablecoin pair - reduced risk",
       "Very low profit margin - high execution risk"] ∧
    ((assessRisk cfgHalf stFresh 1000000 oppLowProfit none).1.reasons.all
      (fun r => !(strMentions "threshold" r))) = true := by
  have hreasons : (assessRisk cfgHalf stFresh 1000000 oppLowProfit none).1.reasons =
      ["Stablecoin pair - reduced risk",
       "Very low profit margin - high execution risk"] := by
    norm_num +decide [assess_reasons_def, assessTokenRisk, assessProtocolRisk,
      assessLiquidityRisk, assessProfitRisk, aiRiskOf, assessPositionSizeRisk,
      assessMarketConditionsRisk, ledgerAfterReset, utilGt, stablecoins,
      majorTokens, trustedProtocols, cfgHalf, stFresh, oppLowProfit,
      tokUSDC, tokUSDT, poolUniA, poolUniB]
  refine ⟨?_, hreasons, ?_⟩
  · norm_num +decide [assessRisk, assessTokenRisk, assessProtocolRisk,
      assessLiquidityRisk, assessProfitRisk, aiRiskOf, assessPositionSizeRisk,
      assessMarketConditionsRisk, shouldExecuteTrade, ledgerAfterReset, utilGt,
      stablecoins, majorTokens, trustedProtocols, cfgHalf, stFresh, oppLowProfit,
      tokUSDC, tokUSDT, poolUniA, poolUniB]
  · rw [hreasons]
    decide

/-- C2 (amended): for every opportunity with profit percentage 0.05%
under `minProfitThreshold` 0.5%, the Risk Gate returns
`shouldExecute = false`, and its reasons list contains the reason
'Very low profit margin - high execution risk' — a reason mentioning the
low profit margin rather than the configured profit threshold. -/
theorem c2_riskGate_lowProfit_amended (cfg : TradingConfig) (st : RiskState)
    (now : ℕ) (opp : ArbitrageOpportunity) (ai : Option AIModelPrediction)
    (hp : opp.profitPercentage = 1 / 20)
    (ht : cfg.minProfitThreshold = 1 / 2) :
    (assessRisk cfg st now opp ai).1.shouldExecute = false ∧
    "Very low profit margin - high execution risk" ∈
      (assessRisk cfg st now opp ai).1.reasons := by
  have hlow : opp.profitPercentage < 1 / 10 := by rw [hp]; norm_num
  have hprof := profitRisk_low opp hlow
  have hscore : 15 ≤ (assessRisk cfg st now opp ai).1.riskScore := by
    rw [assess_riskScore_def]
    have h1 := tokenScore_ge (ledgerAfterReset st now) opp
    have h2 := protocolScore_nonneg (ledgerAfterReset st now) opp
    have h3 := liquidityScore_nonneg opp
    have h4 : (assessProfitRisk opp).1 = 25 := by rw [hprof]
    have h5 := aiRiskOf_ge ai
    have h6 := positionScore_nonneg cfg (ledgerAfterReset st now) opp
    have h7 := marketScore_nonneg (ledgerAfterReset st now) opp now
    omega
  constructor
  · rw [assess_shouldExecute_def]
    unfold shouldExecuteTrade
    split_ifs with h70 hd ha hpr
    · rfl
    · rfl
    · rfl
    · rfl
    · exfalso
      apply hpr
      rw [hp, ht]
      have hc : (15 : ℚ) ≤ ((assessRisk cfg st now opp ai).1.riskScore : ℚ) := by
        exact_mod_cast hscore
      linarith
  · rw [assess_reasons_def, hprof]
    simp [List.mem_append]

/-- C2 witness: Scenario B at the concrete fixtures. -/
theorem c2_witness :
    (oppLowProfit.profitPercentage = 1 / 20 ∧
     cfgHalf.minProfitThreshold = 1 / 2) ∧
    ((assessRisk cfgHalf stFresh 1000000 oppLowProfit none).1.shouldExecute = false ∧
     "Very low profit margin - high execution risk" ∈
       (assessRisk cfgHalf stFresh 1000000 oppLowProfit none).1.reasons) :=
  ⟨⟨rfl, rfl⟩,
   c2_riskGate_lowProfit_amended cfgHalf stFresh 1000000 oppLowProfit none rfl rfl⟩

/- ### Claim C4 -/

/-- C4: for every opportunity in which at least one of the two assets is
on the asset blacklist, the Risk Gate's assessment yields a risk score
of at least 90 and `shouldExecute = false`, regardless of every other
scoring dimension. -/
theorem c4_blacklist_critical (cfg : TradingConfig) (st : RiskState)
    (now : ℕ) (opp : ArbitrageOpportunity) (ai : Option AIModelPrediction)
    (h : st.blacklistedTokens.contains (strToLower opp.tokenA.address) = true ∨
         st.blacklistedTokens.contains (strToLower opp.tokenB.address) = true) :
    90 ≤ (assessRisk cfg st now opp ai).1.riskScore ∧
    (assessRisk cfg st now opp ai).1.shouldExecute = false := by
  have hscore : 90 ≤ (assessRisk cfg st now opp ai).1.riskScore := by
    rw [assess_riskScore_def]
    have h1 : 95 ≤ (assessTokenRisk (ledgerAfterReset st now) opp).1 := by
      apply tokenScore_blacklisted
      rw [ledgerAfterReset_blacklistedTokens]
      exact h
    have h2 := protocolScore_nonneg (ledgerAfterReset st now) opp
    have h3 := liquidityScore_nonneg opp
    have h4 := profitScore_nonneg opp
    have h5 := aiRiskOf_ge ai
    have h6 := positionScore_nonneg cfg (ledgerAfterReset st now) opp
    have h7 := marketScore_nonneg (ledgerAfterReset st now) opp now
    omega
  refine ⟨hscore, ?_⟩
  rw [assess_shouldExecute_def]
  unfold shouldExecuteTrade
  rw [if_pos (by omega)]

/-- C4 witness: the blacklist veto at the concrete fixtures. -/
theorem c4_witness :
    (stBlacklist.blacklistedTokens.contains
        (strToLower oppLowProfit.tokenA.address) = true) ∧
    (90 ≤ (assessRisk cfgHalf stBlacklist 1000000 oppLowProfit none).1.riskScore ∧
     (assessRisk cfgHalf stBlacklist 1000000 oppLowProfit none).1.shouldExecute =
       false) :=
  ⟨by decide,
   c4_blacklist_critical cfgHalf stBlacklist 1000000 oppLowProfit none
     (Or.inl (by decide))⟩

/- ### Claim C5 -/

/-- C5: during sequential execution, once the leg at index `k` fails
(its confirmation status is not success), no later leg is ever
submitted — the number of submitted legs is at most `k + 1`; and in
Scenario D (leg 1 confirms successfully, leg 2's confirmation status is
failure) the produced `ExecutionResult` has `success = false` and its
`transactionHashes` list contains exactly leg 1's identifier. -/
theorem c5_sequential_legs :
    (∀ (legs : List (TradeStep × LegOutcome)) (k : ℕ) (s : TradeStep)
        (o : LegOutcome), legs[k]? = some (s, o) → legSuccess o = false →
      (runLegs legs).submitted ≤ k + 1) ∧
    (executeTrades true legsScenarioD (Except.ok 0) 0 5 = Except.ok
      { success := false, transactionHashes := ["0xleg1"], actualProfit := 0,
        gasUsed := 21000, executionTime := 5,
        error := some "Transaction 0xleg2 failed with status 0" }) := by
  constructor
  · intro legs
    induction legs with
    | nil => intro k s o h hf; simp at h
    | cons x rest ih =>
      intro k s o h hf
      obtain ⟨xs, xo⟩ := x
      cases k with
      | zero =>
        simp only [List.getElem?_cons_zero, Option.some_inj] at h
        obtain ⟨hx1, hx2⟩ := Prod.mk.injEq .. ▸ h
        subst hx2
        cases xo with
        | protocolMissing p => simp [runLegs]
        | submitThrew m => simp [runLegs]
        | noReceipt tx => simp [runLegs]
        | confirmed tx status g =>
          by_cases hs : status = 1
          · subst hs
            simp [legSuccess] at hf
          · simp [runLegs, hs]
      | succ k =>
        simp only [List.getElem?_cons_succ] at h
        cases xo with
        | protocolMissing p => simp [runLegs]
        | submitThrew m => simp [runLegs]
        | noReceipt tx => simp [runLegs]
        | confirmed tx status g =>
          by_cases hs : status = 1
          · subst hs
            have hrec := ih k s o h hf
            simp [runLegs]
            omega
          · simp [runLegs, hs]
  · rfl

/-- C5 witness: the submission bound applied at the Scenario D legs. -/
theorem c5_witness :
    (legsScenarioD[1]? = some (stepLeg2, LegOutcome.confirmed "0xleg2" 0 0) ∧
     legSuccess (LegOutcome.confirmed "0xleg2" 0 0) = false) ∧
    (runLegs legsScenarioD).submitted ≤ 2 :=
  ⟨⟨rfl, rfl⟩,
   c5_sequential_legs.1 legsScenarioD 1 stepLeg2
     (LegOutcome.confirmed "0xleg2" 0 0) rfl rfl⟩

/- ### Helper lemmas: monotonicity of the scoring dimensions -/

lemma tokenRisk_withLiquidity (st : RiskState) (opp : ArbitrageOpportunity)
    (lb ls : ℚ) :
    assessTokenRisk st (withLiquidity opp lb ls) = assessTokenRisk st opp := rfl

lemma protocolRisk_withLiquidity (st : RiskState) (opp : ArbitrageOpportunity)
    (lb ls : ℚ) :
    assessProtocolRisk st (withLiquidity opp lb ls) = assessProtocolRisk st opp := rfl

lemma profitRisk_withLiquidity (opp : ArbitrageOpportunity) (lb ls : ℚ) :
    assessProfitRisk (withLiquidity opp lb ls) = assessProfitRisk opp := rfl

lemma positionRisk_withLiquidity (cfg : TradingConfig) (st : RiskState)
    (opp : ArbitrageOpportunity) (lb ls : ℚ) :
    assessPositionSizeRisk cfg st (withLiquidity opp lb ls) =
      assessPositionSizeRisk cfg st opp := rfl

lemma marketRisk_withLiquidity (st : RiskState) (opp : ArbitrageOpportunity)
    (now : ℕ) (lb ls : ℚ) :
    assessMarketConditionsRisk st (withLiquidity opp lb ls) now =
      assessMarketConditionsRisk st opp now := rfl

lemma tokenRisk_withProfit (st : RiskState) (opp : ArbitrageOpportunity) (p : ℚ) :
    assessTokenRisk st (withProfit opp p) = assessTokenRisk st opp := rfl

lemma protocolRisk_withProfit (st : RiskState) (opp : ArbitrageOpportunity) (p : ℚ) :
    assessProtocolRisk st (withProfit opp p) = assessProtocolRisk st opp := rfl

lemma liquidityRisk_withProfit (opp : ArbitrageOpportunity) (p : ℚ) :
    assessLiquidityRisk (withProfit opp p) = assessLiquidityRisk opp := rfl

lemma positionRisk_withProfit (cfg : TradingConfig) (st : RiskState)
    (opp : ArbitrageOpportunity) (p : ℚ) :
    assessPositionSizeRisk cfg st (withProfit opp p) =
      assessPositionSizeRisk cfg st opp := rfl

lemma marketRisk_withProfit (st : RiskState) (opp : ArbitrageOpportunity)
    (now : ℕ) (p : ℚ) :
    assessMarketConditionsRisk st (withProfit opp p) now =
      assessMarketConditionsRisk st opp now := rfl

lemma tokenRisk_withTimestamp (st : RiskState) (opp : ArbitrageOpportunity) (t : ℕ) :
    assessTokenRisk st (withTimestamp opp t) = assessTokenRisk st opp := rfl

lemma protocolRisk_withTimestamp (st : RiskState) (opp : ArbitrageOpportunity)
    (t : ℕ) :
    assessProtocolRisk st (withTimestamp opp t) = assessProtocolRisk st opp := rfl

lemma liquidityRisk_withTimestamp (opp : ArbitrageOpportunity) (t : ℕ) :
    assessLiquidityRisk (withTimestamp opp t) = assessLiquidityRisk opp := rfl

lemma profitRisk_withTimestamp (opp : ArbitrageOpportunity) (t : ℕ) :
    assessProfitRisk (withTimestamp opp t) = assessProfitRisk opp := rfl

lemma positionRisk_withTimestamp (cfg : TradingConfig) (st : RiskState)
    (opp : ArbitrageOpportunity) (t : ℕ) :
    assessPositionSizeRisk cfg st (withTimestamp opp t) =
      assessPositionSizeRisk cfg st opp := rfl

lemma ledgerAfterReset_withActiveTrades (st : RiskState) (a now : ℕ) :
    ledgerAfterReset (withActiveTrades st a) now =
      withActiveTrades (ledgerAfterReset st now) a := by
  by_cases h : now > st.dailyResetTime <;>
    simp [ledgerAfterReset, withActiveTrades, resetDailyLimits, h]

lemma tokenRisk_withActiveTrades (st : RiskState) (opp : ArbitrageOpportunity)
    (a : ℕ) :
    assessTokenRisk (withActiveTrades st a) opp = assessTokenRisk st opp := rfl

lemma protocolRisk_withActiveTrades (st : RiskState) (opp : ArbitrageOpportunity)
    (a : ℕ) :
    assessProtocolRisk (withActiveTrades st a) opp = assessProtocolRisk st opp := rfl

lemma positionRisk_withActiveTrades (cfg : TradingConfig) (st : RiskState)
    (opp : ArbitrageOpportunity) (a : ℕ) :
    assessPositionSizeRisk cfg (withActiveTrades st a) opp =
      assessPositionSizeRisk cfg st opp := rfl

/-- Monotonicity of the JS utilization comparison as the denominator
shrinks (holding the numerator nonnegative). -/
lemma utilGt_mono (p m m' t : ℚ) (hp : 0 ≤ p) (hm' : 0 ≤ m') (hmm : m' ≤ m)
    (ht : 0 < t) (h : utilGt p m t = true) : utilGt p m' t = true := by
  unfold utilGt at h ⊢
  by_cases hm'0 : m' = 0
  · rw [if_pos hm'0]
    by_cases hm0 : m = 0
    · rw [if_pos hm0] at h
      exact h
    · rw [if_neg hm0] at h
      have hm0le : (0 : ℚ) ≤ m := le_trans (hm'0 ▸ hm') hmm
      have hmpos : 0 < m := lt_of_le_of_ne hm0le (Ne.symm hm0)
      have h1 : t < p / m := of_decide_eq_true h
      have h2 : 0 < p / m := lt_trans ht h1
      have h3 : 0 < p := by
        rcases div_pos_iff.mp h2 with ⟨hp1, _⟩ | ⟨_, hm1⟩
        · exact hp1
        · exact absurd hmpos (not_lt_of_lt hm1)
      exact decide_eq_true h3
  · rw [if_neg hm'0]
    have hm'pos : 0 < m' := lt_of_le_of_ne hm' (Ne.symm hm'0)
    have hmpos : 0 < m := lt_of_lt_of_le hm'pos hmm
    rw [if_neg (ne_of_gt hmpos)] at h
    have h1 : t < p / m := of_decide_eq_true h
    have h2 : p / m ≤ p / m' := by
      rw [div_le_div_iff₀ hmpos hm'pos]
      exact mul_le_mul_of_nonneg_left hmm hp
    exact decide_eq_true (lt_of_lt_of_le h1 h2)

/-- The liquidity risk score never decreases when both pools' liquidity
shrinks. -/
lemma liquidityScore_mono (opp : ArbitrageOpportunity) (lb ls lb' ls' : ℚ)
    (hin : 0 ≤ opp.inputAmount) (hb' : 0 ≤ lb') (hb : lb' ≤ lb)
    (hs' : 0 ≤ ls') (hs : ls' ≤ ls) :
    (assessLiquidityRisk (withLiquidity opp lb ls)).1 ≤
      (assessLiquidityRisk (withLiquidity opp lb' ls')).1 := by
  have hm' : (0 : ℚ) ≤ min lb' ls' := le_min hb' hs'
  have hmm : min lb' ls' ≤ min lb ls := min_le_min hb hs
  have hp : (0 : ℚ) ≤ (opp.inputAmount : ℚ) / 1000000000000000000 := by
    apply div_nonneg _ (by norm_num)
    exact_mod_cast hin
  have k5 := utilGt_mono ((opp.inputAmount : ℚ) / 1000000000000000000)
    (min lb ls) (min lb' ls') (5 / 100) hp hm' hmm (by norm_num)
  have k2 := utilGt_mono ((opp.inputAmount : ℚ) / 1000000000000000000)
    (min lb ls) (min lb' ls') (2 / 100) hp hm' hmm (by norm_num)
  simp only [assessLiquidityRisk, withLiquidity]
  apply add_le_add
  · split_ifs <;> norm_num <;> linarith [hmm]
  · by_cases hA : utilGt ((opp.inputAmount : ℚ) / 1000000000000000000)
        (min lb ls) (5 / 100) = true
    · rw [if_pos hA, if_pos (k5 hA)]
    · rw [if_neg hA]
      by_cases hB : utilGt ((opp.inputAmount : ℚ) / 1000000000000000000)
          (min lb ls) (2 / 100) = true
      · rw [if_pos hB]
        split_ifs with h1 h2 <;> norm_num
        exact absurd (k2 hB) h2
      · rw [if_neg hB]
        split_ifs <;> norm_num

/-- The profit risk score never decreases as the profit percentage drops
within the below-floor region. -/
lemma profitScore_mono (opp : ArbitrageOpportunity) (p p' : ℚ)
    (hpp : p' ≤ p) (hfl : p ≤ 2 / 10) :
    (assessProfitRisk (withProfit opp p)).1 ≤
      (assessProfitRisk (withProfit opp p')).1 := by
  simp only [assessProfitRisk, withProfit]
  apply add_le_add
  · split_ifs <;> norm_num <;> linarith
  · split_ifs <;> norm_num <;> linarith

/-- The market-conditions risk score never decreases as the opportunity
gets older. -/
lemma marketScore_mono_timestamp (st : RiskState) (opp : ArbitrageOpportunity)
    (now t t' : ℕ) (h : t' ≤ t) :
    (assessMarketConditionsRisk st (withTimestamp opp t) now).1 ≤
      (assessMarketConditionsRisk st (withTimestamp opp t') now).1 := by
  simp only [assessMarketConditionsRisk, withTimestamp]
  apply add_le_add le_rfl
  split_ifs <;> omega

/-- The market-conditions risk score never decreases as the active-trade
count grows. -/
lemma marketScore_mono_active (st : RiskState) (opp : ArbitrageOpportunity)
    (now a a' : ℕ) (h : a ≤ a') :
    (assessMarketConditionsRisk (withActiveTrades st a) opp now).1 ≤
      (assessMarketConditionsRisk (withActiveTrades st a') opp now).1 := by
  simp only [assessMarketConditionsRisk, withActiveTrades]
  apply add_le_add (add_le_add _ le_rfl) le_rfl
  split_ifs <;> omega

/- ### Claim C6 -/

/-- C6: the Risk Gate's total risk score is monotonically non-decreasing,
all other inputs held fixed, (i) as pool liquidity decreases, (ii) as
profit drops below the 0.2% safety floor, (iii) as the opportunity age
increases (detection timestamp decreases), and (iv) as the active-trade
count increases. -/
theorem c6_risk_monotonicity :
    (∀ (cfg : TradingConfig) (st : RiskState) (now : ℕ)
        (opp : ArbitrageOpportunity) (ai : Option AIModelPrediction)
        (lb ls lb' ls' : ℚ), 0 ≤ opp.inputAmount →
      0 ≤ lb' → lb' ≤ lb → 0 ≤ ls' → ls' ≤ ls →
      (assessRisk cfg st now (withLiquidity opp lb ls) ai).1.riskScore ≤
        (assessRisk cfg st now (withLiquidity opp lb' ls') ai).1.riskScore) ∧
    (∀ (cfg : TradingConfig) (st : RiskState) (now : ℕ)
        (opp : ArbitrageOpportunity) (ai : Option AIModelPrediction)
        (p p' : ℚ), p' ≤ p → p ≤ 2 / 10 →
      (assessRisk cfg st now (withProfit opp p) ai).1.riskScore ≤
        (assessRisk cfg st now (withProfit opp p') ai).1.riskScore) ∧
    (∀ (cfg : TradingConfig) (st : RiskState) (now : ℕ)
        (opp : ArbitrageOpportunity) (ai : Option AIModelPrediction)
        (t t' : ℕ), t' ≤ t →
      (assessRisk cfg st now (withTimestamp opp t) ai).1.riskScore ≤
        (assessRisk cfg st now (withTimestamp opp t') ai).1.riskScore) ∧
    (∀ (cfg : TradingConfig) (st : RiskState) (now : ℕ)
        (opp : ArbitrageOpportunity) (ai : Option AIModelPrediction)
        (a a' : ℕ), a ≤ a' →
      (assessRisk cfg (withActiveTrades st a) now opp ai).1.riskScore ≤
        (assessRisk cfg (withActiveTrades st a') now opp ai).1.riskScore) := by
  refine ⟨?_, ?_, ?_, ?_⟩
  · intro cfg st now opp ai lb ls lb' ls' hin hb' hb hs' hs
    rw [assess_riskScore_def, assess_riskScore_def,
      tokenRisk_withLiquidity, tokenRisk_withLiquidity,
      protocolRisk_withLiquidity, protocolRisk_withLiquidity,
      profitRisk_withLiquidity, profitRisk_withLiquidity,
      positionRisk_withLiquidity, positionRisk_withLiquidity,
      marketRisk_withLiquidity, marketRisk_withLiquidity]
    have hmono := liquidityScore_mono opp lb ls lb' ls' hin hb' hb hs' hs
    omega
  · intro cfg st now opp ai p p' hpp hfl
    rw [assess_riskScore_def, assess_riskScore_def,
      tokenRisk_withProfit, tokenRisk_withProfit,
      protocolRisk_withProfit, protocolRisk_withProfit,
      liquidityRisk_withProfit, liquidityRisk_withProfit,
      positionRisk_withProfit, positionRisk_withProfit,
      marketRisk_withProfit, marketRisk_withProfit]
    have hmono := profitScore_mono opp p p' hpp hfl
    omega
  · intro cfg st now opp ai t t' h
    rw [assess_riskScore_def, assess_riskScore_def,
      tokenRisk_withTimestamp, tokenRisk_withTimestamp,
      protocolRisk_withTimestamp, protocolRisk_withTimestamp,
      liquidityRisk_withTimestamp, liquidityRisk_withTimestamp,
      profitRisk_withTimestamp, profitRisk_withTimestamp,
      positionRisk_withTimestamp, positionRisk_withTimestamp]
    have hmono := marketScore_mono_timestamp (ledgerAfterReset st now) opp now t t' h
    omega
  · intro cfg st now opp ai a a' h
    rw [assess_riskScore_def, assess_riskScore_def,
      ledgerAfterReset_withActiveTrades, ledgerAfterReset_withActiveTrades,
      tokenRisk_withActiveTrades, tokenRisk_withActiveTrades,
      protocolRisk_withActiveTrades, protocolRisk_withActiveTrades,
      positionRisk_withActiveTrades, positionRisk_withActiveTrades]
    have hmono := marketScore_mono_active (ledgerAfterReset st now) opp now a a' h
    omega

/-- C6 witness: each monotonicity bound instantiated at concrete inputs. -/
theorem c6_witness :
    ((assessRisk cfgHalf stFresh 1000000 (withLiquidity oppStable 0 0) none).1.riskScore ≤
      (assessRisk cfgHalf stFresh 1000000 (withLiquidity oppStable 0 0) none).1.riskScore) ∧
    ((assessRisk cfgHalf stFresh 1000000 (withProfit oppStable (2 / 10)) none).1.riskScore ≤
      (assessRisk cfgHalf stFresh 1000000 (withProfit oppStable (2 / 10)) none).1.riskScore) ∧
    ((assessRisk cfgHalf stFresh 1000000 (withTimestamp oppStable 5) none).1.riskScore ≤
      (assessRisk cfgHalf stFresh 1000000 (withTimestamp oppStable 5) none).1.riskScore) ∧
    ((assessRisk cfgHalf (withActiveTrades stFresh 3) 1000000 oppStable none).1.riskScore ≤
      (assessRisk cfgHalf (withActiveTrades stFresh 3) 1000000 oppStable none).1.riskScore) :=
  ⟨c6_risk_monotonicity.1 cfgHalf stFresh 1000000 oppStable none 0 0 0 0
     (by decide) (le_refl 0) (le_refl 0) (le_refl 0) (le_refl 0),
   c6_risk_monotonicity.2.1 cfgHalf stFresh 1000000 oppStable none (2 / 10) (2 / 10)
     (le_refl (2 / 10)) (le_refl (2 / 10)),
   c6_risk_monotonicity.2.2.1 cfgHalf stFresh 1000000 oppStable none 5 5
     (le_refl 5),
   c6_risk_monotonicity.2.2.2 cfgHalf stFresh 1000000 oppStable none 3 3
     (le_refl 3)⟩
